import Mathlib

/-!
Verification of the gutestrap plugin self-update component
(`Gutestrap_Update` in the PHP source).

The embedding models the component's operations as pure Lean functions.
Host collaborators (the metadata retrieval behind `get_plugin_data`, the
activation state behind `is_plugin_active`, the filesystem behind
`$wp_filesystem->move`) are passed in as explicit parameters; the effects
the component performs on them (moves, activations, network retrievals)
are returned as explicit outcome data so that theorems can speak about
them.
-/

namespace Gutestrap

/-- The field mapping returned by the host's `get_plugin_data` collaborator
(used both for the remote metadata document and for the local
`$gutestrap_plugin_data` global). Only the fields the component reads are
modelled. -/
structure PluginData where
  Name : String
  Version : String
  PluginURI : String
  RequiresWP : String
  RequiresPHP : String
  Author : String
  Description : String
deriving DecidableEq

/-- Modelled from the spec: the plugin's stable identifier string, used as a
key in all host-side aggregates. The constant `GUTESTRAP_PLUGIN_BASENAME` is
defined in plugin bootstrap code not present under `src/`; per the host's
convention for the plugin `gutestrap` it is the entry file path relative to
the plugins directory. The theorems below depend only on it being a fixed
string, not on its exact value. -/
def GUTESTRAP_PLUGIN_BASENAME : String := "gutestrap/gutestrap.php"

/-- `private $repo_version_branch = "main";` -/
def repo_version_branch : String := "main"

/-- `$this->remote_plugin_endpoint_base`, assigned in the constructor. -/
def remote_plugin_endpoint_base : String :=
  "https://raw.githubusercontent.com/Denman-Digital/gutestrap/" ++ repo_version_branch ++ "/"

/-- The singleton's mutable state: `private $did_fetch_remote_data = false;`. -/
structure UpdateState where
  did_fetch_remote_data : Bool
deriving DecidableEq

/-- The descriptor array built by `get_remote_plugin_data`. -/
structure RemotePluginData where
  slug : String
  plugin : String
  name : String
  version : String
  new_version : String
  url : String
  package : String
  requires : String
  require_php : String
  author : String
  icons : List (String × String)
  banners : List (String × String)
deriving DecidableEq

/-- `public function get_remote_plugin_data(): array`.
The retrieval collaborator's outcome (`get_plugin_data` applied to
`$this->remote_plugin_endpoint_base . GUTESTRAP_PLUGIN_FILE`) is the
parameter `fetch`: `none` models a falsy result (retrieval failed or
yielded no parseable metadata), in which case the source returns the empty
array, modelled as `none`; otherwise the populated descriptor array is
built field by field from the fetched data. -/
def get_remote_plugin_data (fetch : Option PluginData) : Option RemotePluginData :=
  match fetch with
  | none => none
  | some d => some {
      slug := "gutestrap"
      plugin := GUTESTRAP_PLUGIN_BASENAME
      name := d.Name
      version := d.Version
      new_version := d.Version
      url := d.PluginURI
      package := "https://github.com/Denman-Digital/gutestrap/archive/" ++ repo_version_branch ++ ".zip"
      requires := d.RequiresWP
      require_php := d.RequiresPHP
      author := d.Author
      icons := [("2x", remote_plugin_endpoint_base ++ "assets/icon-256x256.png"),
                ("1x", remote_plugin_endpoint_base ++ "assets/icon-128x128.png"),
                ("svg", remote_plugin_endpoint_base ++ "assets/icon.svg")]
      banners := [("high", remote_plugin_endpoint_base ++ "assets/banner-1544x500.jpg"),
                  ("low", remote_plugin_endpoint_base ++ "assets/banner-772x250.jpg")] }

/-- `public function update_plugins_gutestrap_data($value)`, instrumented
with the number of network retrievals it performs (it always calls
`get_remote_plugin_data` exactly once). When the fetch yields data it sets
the `did_fetch_remote_data` flag and replaces the filter value; otherwise
state and value pass through. -/
def update_plugins_gutestrap_data_instr (st : UpdateState) (fetch : Option PluginData)
    (value : Option RemotePluginData) :
    (UpdateState × Option RemotePluginData) × Nat :=
  match get_remote_plugin_data fetch with
  | some data => (({ st with did_fetch_remote_data := true }, some data), 1)
  | none => ((st, value), 1)

/-- Split a character list at every occurrence of a separator character
(the splitting underlying both `.`-separated version segments and
`/`-separated path components). -/
def splitOnChar (sep : Char) : List Char → List (List Char)
  | [] => [[]]
  | c :: cs =>
    match splitOnChar sep cs with
    | [] => [[]]
    | s :: ss => if c = sep then [] :: s :: ss else (c :: s) :: ss

/-- Numeric value of a version segment: the denoted number for a nonempty
all-digit segment, 0 otherwise. -/
def segToNat (cs : List Char) : Nat :=
  if cs ≠ [] ∧ cs.all Char.isDigit then
    cs.foldl (fun acc c => acc * 10 + (c.toNat - 48)) 0
  else 0

/-- Modelled from the spec: "standard version-precedence comparison"
(`remote > installed`). The source calls the host's
`version_compare($a, $b, '>')`, which is not repository code; for the
well-formed dotted numeric version strings the spec assumes (§7), that
comparison splits each string on `.` and compares the numeric segments
left to right, a missing segment ordering below a present one. -/
def version_segments (s : String) : List Nat :=
  (splitOnChar '.' s.toList).map segToNat

/-- Segment-wise strict greater-than on version segment lists. -/
def segments_gt : List Nat → List Nat → Bool
  | [], [] => false
  | _ :: _, [] => true
  | [], _ :: _ => false
  | a :: as, b :: bs => if b < a then true else if a < b then false else segments_gt as bs

/-- `version_compare(a, b, '>')` on well-formed dotted numeric versions. -/
def version_gt (a b : String) : Bool :=
  segments_gt (version_segments a) (version_segments b)

/-- Key lookup in a PHP-array-style association list (`isset($m[$k])` /
`$m[$k]`). -/
def lookupA {α : Type} (m : List (String × α)) (k : String) : Option α :=
  match m with
  | [] => none
  | (k', v) :: rest => if k' = k then some v else lookupA rest k

/-- Key assignment `$m[$k] = $v` in a PHP-array-style association list:
replaces the value at an existing key, otherwise appends. -/
def setA {α : Type} (m : List (String × α)) (k : String) (v : α) : List (String × α) :=
  match m with
  | [] => [(k, v)]
  | (k', v') :: rest => if k' = k then (k', v) :: rest else (k', v') :: setA rest k v

/-- `unset($m[$k])`: removes the key. PHP arrays hold each key at most
once, so removing every matching pair coincides with removing the unique
one on all PHP-reachable lists. -/
def eraseA {α : Type} (m : List (String × α)) (k : String) : List (String × α) :=
  match m with
  | [] => []
  | (k', v') :: rest => if k' = k then eraseA rest k else (k', v') :: eraseA rest k

/-- The host's update-check aggregate (`$transient`): optional `response`,
`checked` and `no_update` members, each a map keyed by plugin basename.
`none` models an unset member (`isset` false). -/
structure Transient where
  response : Option (List (String × RemotePluginData))
  checked : Option (List (String × String))
  no_update : Option (List (String × RemotePluginData))
deriving DecidableEq

/-- `public function modify_plugins_transient($transient)`, instrumented
with the number of network retrievals it performs. `st` is the singleton
state, `fetch` the retrieval collaborator's outcome for this call,
`gutestrap_plugin_data` the global local-plugin descriptor whose
`Version` field is the installed version. Mirrors the source: bail when
`response` is unset; under `isset($transient->checked, $transient->checked[B],
$transient->no_update[B]) && !$this->did_fetch_remote_data` fetch the remote
data and, when `version_compare($remote->new_version, $installed, ">")`,
insert the remote descriptor into `response` and unset the `no_update`
entry. When the fetch is empty, `(object) []` has no `new_version`
member, `version_compare` receives null and the `>` test is false, so the
transient passes through. -/
def modify_plugins_transient_instr (st : UpdateState) (fetch : Option PluginData)
    (gutestrap_plugin_data : PluginData) (transient : Transient) : Transient × Nat :=
  match transient.response with
  | none => (transient, 0)
  | some resp =>
    match transient.checked, transient.no_update with
    | some checked, some nu =>
      if (lookupA checked GUTESTRAP_PLUGIN_BASENAME).isSome
          && (lookupA nu GUTESTRAP_PLUGIN_BASENAME).isSome
          && !st.did_fetch_remote_data then
        match get_remote_plugin_data fetch with
        | some remote_data =>
          if version_gt remote_data.new_version gutestrap_plugin_data.Version then
            ({ transient with
                response := some (setA resp GUTESTRAP_PLUGIN_BASENAME remote_data)
                no_update := some (eraseA nu GUTESTRAP_PLUGIN_BASENAME) }, 1)
          else (transient, 1)
        | none => (transient, 1)
      else (transient, 0)
    | _, _ => (transient, 0)

/-- The aggregate returned by `modify_plugins_transient`. -/
def modify_plugins_transient (st : UpdateState) (fetch : Option PluginData)
    (gutestrap_plugin_data : PluginData) (transient : Transient) : Transient :=
  (modify_plugins_transient_instr st fetch gutestrap_plugin_data transient).1

/-- The condition under which `modify_plugins_transient` can touch the
aggregate at all: `response` is set, and `checked` and `no_update` each
hold an entry for the plugin basename. -/
def transient_eligible (t : Transient) : Bool :=
  t.response.isSome
    && (match t.checked with
        | some checked => (lookupA checked GUTESTRAP_PLUGIN_BASENAME).isSome
        | none => false)
    && (match t.no_update with
        | some nu => (lookupA nu GUTESTRAP_PLUGIN_BASENAME).isSome
        | none => false)

/-- The `$args` object of the `plugins_api` filter; only its `slug` member
is read, through `isset($args->slug)`. -/
structure DetailsArgs where
  slug : Option String
deriving DecidableEq

/-- The `sections` array attached by `modify_plugin_details`. -/
structure Sections where
  description : String
  installation : String
  changelog : String
deriving DecidableEq

/-- The result of `modify_plugin_details`: either the incoming filter value
passed through unchanged, or the raw fetch result returned by the
`if (!is_array($result)) return $result;` guard, or the fetch result cast
to an object and decorated with `sections`. -/
inductive DetailsResult (α : Type) where
  | passthrough (r : α)
  | raw (data : Option RemotePluginData)
  | decorated (data : Option RemotePluginData) (sections : Sections)
deriving DecidableEq

/-- `is_array` applied to the value of `get_remote_plugin_data()`: the
callee's declared return type is `array`, so this is identically true. -/
def fetch_result_is_array (_ : Option RemotePluginData) : Bool := true

/-- The `sections` array built in `modify_plugin_details`: description from
the local `$gutestrap_plugin_data["Description"]`, installation and
changelog from fixed markup (the host's `__` and `esc_url` collaborators
leave these untranslated ASCII strings and clean URLs unchanged). -/
def gutestrap_sections (gutestrap_plugin_data : PluginData) : Sections :=
  { description := gutestrap_plugin_data.Description
    installation := "<a href=\"https://github.com/Denman-Digital/gutestrap/archive/"
      ++ repo_version_branch
      ++ ".zip\" download>Download the latest release from GitHub</a>, and either install it through the Add New Plugins page in the WordPress admin, or manually extract the contents into your WordPress installations plugin folder."
    changelog := "<a href=\"https://github.com/Denman-Digital/gutestrap/releases\">Full list of releases</a>" }

/-- `function modify_plugin_details($result, $action = null, $args = null)`.
Passes the filter value through unless `$args->slug` is set, equals
"gutestrap", and the action is "plugin_information"; otherwise replaces
the result with the remote fetch, and (the `!is_array` guard never firing,
since the fetch is always an array) decorates it with the sections. -/
def modify_plugin_details {α : Type} (fetch : Option PluginData)
    (gutestrap_plugin_data : PluginData) (result : α)
    (action : Option String) (args : Option DetailsArgs) : DetailsResult α :=
  match args with
  | none => .passthrough result
  | some args =>
    match args.slug with
    | none => .passthrough result
    | some slug =>
      if slug ≠ "gutestrap" ∨ action ≠ some "plugin_information" then
        .passthrough result
      else
        let fetched := get_remote_plugin_data fetch
        if ¬ fetch_result_is_array fetched = true then
          .raw fetched
        else
          .decorated fetched (gutestrap_sections gutestrap_plugin_data)

/-- Host constant `WP_PLUGIN_DIR`; the theorems depend only on it being a
fixed path. -/
def WP_PLUGIN_DIR : String := "/var/www/wp-content/plugins"

/-- Host constant `DIRECTORY_SEPARATOR`. -/
def DIRECTORY_SEPARATOR : String := "/"

/-- PHP `dirname` on a relative path with forward slashes: the path
without its trailing component, "." when there is no separator. Only
applied to the constant `GUTESTRAP_PLUGIN_BASENAME`. -/
def dirnamePHP (s : String) : String :=
  match (splitOnChar '/' s.toList).dropLast with
  | [] => "."
  | parts => String.mk (List.intercalate ['/'] parts)

/-- The `$pluginFolder` computed in `post_install`. -/
def gutestrap_plugin_folder : String :=
  WP_PLUGIN_DIR ++ DIRECTORY_SEPARATOR ++ dirnamePHP GUTESTRAP_PLUGIN_BASENAME

/-- The `$result` array of `upgrader_post_install`; only its
`destination` member is read or written. -/
structure InstallResult where
  destination : String
deriving DecidableEq

/-- What a call to `post_install` does: the returned filter value, the
`$wp_filesystem->move` calls issued (source, target), the
`activate_plugin` calls issued, and the final value of the local
`$result` array. -/
structure PostInstallOutcome where
  ret : Bool
  moves : List (String × String)
  activations : List String
  result : InstallResult
deriving DecidableEq

/-- `public function post_install(bool $response, array $_hook_extra, array
$result): bool`. `hook_extra_plugin` is `$_hook_extra["plugin"]` (`none`
when unset), `active_before` the `is_plugin_active` collaborator's answer
captured before the guard, and `_move_ok` the filesystem move
collaborator's outcome, which the source ignores. On a matching plugin
basename: move the extracted files to the canonical plugin folder, update
the local result's destination, and re-activate when previously active;
always return the incoming response flag. -/
def post_install (response : Bool) (hook_extra_plugin : Option String)
    (result : InstallResult) (active_before : Bool) (_move_ok : Bool) :
    PostInstallOutcome :=
  let wasActivated := active_before
  if hook_extra_plugin = some GUTESTRAP_PLUGIN_BASENAME then
    let pluginFolder := gutestrap_plugin_folder
    { ret := response
      moves := [(result.destination, pluginFolder)]
      activations := if wasActivated then [GUTESTRAP_PLUGIN_BASENAME] else []
      result := { result with destination := pluginFolder } }
  else
    { ret := response, moves := [], activations := [], result := result }

/-- Sample local plugin data (`$gutestrap_plugin_data`): installed
version 2.3.0. -/
def loc0 : PluginData :=
  { Name := "GuteStrap"
    Version := "2.3.0"
    PluginURI := "https://github.com/Denman-Digital/gutestrap"
    RequiresWP := "5.8"
    RequiresPHP := "7.4"
    Author := "Denman Digital"
    Description := "Bootstrap layouts for the block editor" }

/-- Sample fetched remote metadata: version 2.4.0. -/
def d0 : PluginData := { loc0 with Version := "2.4.0" }

/-- The descriptor `get_remote_plugin_data` builds from `d0`. -/
def r0 : RemotePluginData :=
  match get_remote_plugin_data (some d0) with
  | some r => r
  | none => { slug := "", plugin := "", name := "", version := "", new_version := "", url := ""
              package := "", requires := "", require_php := "", author := "", icons := [], banners := [] }

/-- The singleton state before any fetch. -/
def st0 : UpdateState := { did_fetch_remote_data := false }

/-- Sample aggregate: `response` present, `checked` and `no_update` each
holding an entry for the plugin basename. -/
def t0 : Transient :=
  { response := some []
    checked := some [(GUTESTRAP_PLUGIN_BASENAME, "2.3.0")]
    no_update := some [(GUTESTRAP_PLUGIN_BASENAME, r0)] }

/-- Sample aggregate with every member unset. -/
def tEmpty : Transient := { response := none, checked := none, no_update := none }

/- ------------------------------------------------------------------ -/
/- Helper lemmas                                                       -/
/- ------------------------------------------------------------------ -/

theorem lookupA_setA {α : Type} (m : List (String × α)) (k : String) (v : α) :
    lookupA (setA m k v) k = some v := by
  induction m with
  | nil => simp [setA, lookupA]
  | cons hd tl ih =>
    obtain ⟨k', v'⟩ := hd
    by_cases h : k' = k
    · simp [setA, lookupA, h]
    · simp [setA, lookupA, h, ih]

theorem lookupA_eraseA {α : Type} (m : List (String × α)) (k : String) :
    lookupA (eraseA m k) k = none := by
  induction m with
  | nil => rfl
  | cons hd tl ih =>
    obtain ⟨k', v'⟩ := hd
    by_cases h : k' = k
    · simp [eraseA, h, ih]
    · simp [eraseA, lookupA, h, ih]

/-- When the aggregate is not eligible (missing `response`, or no
`checked`/`no_update` entry for the plugin), `modify_plugins_transient`
returns it unchanged. -/
theorem modify_not_eligible (st : UpdateState) (fetch : Option PluginData)
    (loc : PluginData) (t : Transient) (h : transient_eligible t = false) :
    modify_plugins_transient st fetch loc t = t := by
  unfold transient_eligible at h
  unfold modify_plugins_transient modify_plugins_transient_instr
  rcases hr : t.response with _ | resp
  · simp [hr]
  · rcases hc : t.checked with _ | checked
    · simp [hr, hc]
    · rcases hn : t.no_update with _ | nu
      · simp [hr, hc, hn]
      · rw [hr, hc, hn] at h
        simp only [Option.isSome_some, Bool.true_and] at h
        rcases Bool.and_eq_false_iff.mp h with h' | h' <;> simp [h']

/-- When the singleton has already fetched this cycle,
`modify_plugins_transient` performs no retrieval and returns the
aggregate unchanged. -/
theorem modify_after_fetch (st : UpdateState) (fetch : Option PluginData)
    (loc : PluginData) (t : Transient) (h : st.did_fetch_remote_data = true) :
    modify_plugins_transient_instr st fetch loc t = (t, 0) := by
  unfold modify_plugins_transient_instr
  rcases hr : t.response with _ | resp
  · simp [hr]
  · rcases hc : t.checked with _ | checked
    · simp [hr, hc]
    · rcases hn : t.no_update with _ | nu
      · simp [hr, hc, hn]
      · simp [h]

/-- Evaluation of `modify_plugins_transient_instr` when every guard
condition holds and the fetch yields data: one retrieval, and the
aggregate is rewritten exactly when the remote version is newer. -/
theorem modify_guard_eval (st : UpdateState) (fetch : Option PluginData)
    (loc : PluginData) (t : Transient)
    (resp : List (String × RemotePluginData)) (checked : List (String × String))
    (nu : List (String × RemotePluginData)) (remote : RemotePluginData)
    (hr : t.response = some resp) (hc : t.checked = some checked)
    (hn : t.no_update = some nu)
    (hcB : (lookupA checked GUTESTRAP_PLUGIN_BASENAME).isSome = true)
    (hnB : (lookupA nu GUTESTRAP_PLUGIN_BASENAME).isSome = true)
    (hflag : st.did_fetch_remote_data = false)
    (hfetch : get_remote_plugin_data fetch = some remote) :
    modify_plugins_transient_instr st fetch loc t =
      (if version_gt remote.new_version loc.Version then
        { t with
            response := some (setA resp GUTESTRAP_PLUGIN_BASENAME remote)
            no_update := some (eraseA nu GUTESTRAP_PLUGIN_BASENAME) }
       else t, 1) := by
  unfold modify_plugins_transient_instr
  rw [hr, hc, hn, hfetch]
  simp only [hcB, hnB, hflag, Bool.not_false, Bool.and_true, if_true]
  split <;> rfl

/-- `modify_plugins_transient` either returns the aggregate unchanged or
rewrites its `response` and `no_update` members as in the newer-version
branch. -/
theorem modify_result_cases (st : UpdateState) (fetch : Option PluginData)
    (loc : PluginData) (t : Transient) :
    modify_plugins_transient st fetch loc t = t ∨
    ∃ resp nu remote, t.response = some resp ∧ t.no_update = some nu ∧
      modify_plugins_transient st fetch loc t =
        { t with
            response := some (setA resp GUTESTRAP_PLUGIN_BASENAME remote)
            no_update := some (eraseA nu GUTESTRAP_PLUGIN_BASENAME) } := by
  unfold modify_plugins_transient modify_plugins_transient_instr
  rcases hr : t.response with _ | resp
  · simp [hr]
  · rcases hc : t.checked with _ | checked
    · simp [hr, hc]
    · rcases hn : t.no_update with _ | nu
      · simp [hr, hc, hn]
      · dsimp only
        by_cases hcond : ((lookupA checked GUTESTRAP_PLUGIN_BASENAME).isSome
            && (lookupA nu GUTESTRAP_PLUGIN_BASENAME).isSome
            && !st.did_fetch_remote_data) = true
        · rw [if_pos hcond]
          rcases hf : get_remote_plugin_data fetch with _ | remote
          · simp
          · dsimp only
            by_cases hgt : version_gt remote.new_version loc.Version = true
            · rw [if_pos hgt]
              right
              exact ⟨resp, nu, remote, rfl, rfl, rfl⟩
            · rw [if_neg hgt]
              simp
        · rw [if_neg hcond]
          simp

/- ------------------------------------------------------------------ -/
/- Claim theorems                                                      -/
/- ------------------------------------------------------------------ -/

/-- Claim C1: for well-formed version strings, `modify_plugins_transient`
marks the plugin as "update available" (inserting the remote descriptor
into `response` and removing the `no_update` entry) exactly when the
remote version is strictly greater than the installed version under
standard version-precedence comparison; when the remote version is equal
or lesser, the aggregate — in particular its default "no update"
classification — is returned untouched. -/
theorem claim_C1_marks_update_iff_newer (st : UpdateState) (fetch : Option PluginData)
    (loc : PluginData) (t : Transient)
    (resp : List (String × RemotePluginData)) (checked : List (String × String))
    (nu : List (String × RemotePluginData)) (remote : RemotePluginData)
    (hr : t.response = some resp) (hc : t.checked = some checked)
    (hn : t.no_update = some nu)
    (hcB : (lookupA checked GUTESTRAP_PLUGIN_BASENAME).isSome = true)
    (hnB : (lookupA nu GUTESTRAP_PLUGIN_BASENAME).isSome = true)
    (hflag : st.did_fetch_remote_data = false)
    (hfetch : get_remote_plugin_data fetch = some remote) :
    modify_plugins_transient st fetch loc t =
      if version_gt remote.new_version loc.Version then
        { t with
            response := some (setA resp GUTESTRAP_PLUGIN_BASENAME remote)
            no_update := some (eraseA nu GUTESTRAP_PLUGIN_BASENAME) }
      else t := by
  unfold modify_plugins_transient
  rw [modify_guard_eval st fetch loc t resp checked nu remote hr hc hn hcB hnB hflag hfetch]

/-- Claim C2: whenever `modify_plugins_transient` inserts an "update
available" entry for the plugin basename, the resulting aggregate holds
the remote descriptor in `response` and no `no_update` entry for that
basename: both outcomes never coexist after the insertion. -/
theorem claim_C2_update_entry_excludes_no_update (st : UpdateState)
    (fetch : Option PluginData) (loc : PluginData) (t : Transient)
    (resp : List (String × RemotePluginData)) (checked : List (String × String))
    (nu : List (String × RemotePluginData)) (remote : RemotePluginData)
    (hr : t.response = some resp) (hc : t.checked = some checked)
    (hn : t.no_update = some nu)
    (hcB : (lookupA checked GUTESTRAP_PLUGIN_BASENAME).isSome = true)
    (hnB : (lookupA nu GUTESTRAP_PLUGIN_BASENAME).isSome = true)
    (hflag : st.did_fetch_remote_data = false)
    (hfetch : get_remote_plugin_data fetch = some remote)
    (hgt : version_gt remote.new_version loc.Version = true) :
    ∃ resp' nu',
      (modify_plugins_transient st fetch loc t).response = some resp' ∧
      (modify_plugins_transient st fetch loc t).no_update = some nu' ∧
      lookupA resp' GUTESTRAP_PLUGIN_BASENAME = some remote ∧
      lookupA nu' GUTESTRAP_PLUGIN_BASENAME = none := by
  unfold modify_plugins_transient
  rw [modify_guard_eval st fetch loc t resp checked nu remote hr hc hn hcB hnB hflag hfetch]
  rw [if_pos hgt]
  exact ⟨setA resp GUTESTRAP_PLUGIN_BASENAME remote,
    eraseA nu GUTESTRAP_PLUGIN_BASENAME, rfl, rfl,
    lookupA_setA resp GUTESTRAP_PLUGIN_BASENAME remote,
    lookupA_eraseA nu GUTESTRAP_PLUGIN_BASENAME⟩

/-- Claim C3: `modify_plugins_transient` is idempotent — a second call
with the same singleton state, fetch outcome and installed version on the
aggregate produced by the first call returns that aggregate unchanged. -/
theorem claim_C3_idempotent (st : UpdateState) (fetch : Option PluginData)
    (loc : PluginData) (t : Transient) :
    modify_plugins_transient st fetch loc (modify_plugins_transient st fetch loc t) =
      modify_plugins_transient st fetch loc t := by
  rcases modify_result_cases st fetch loc t with h | ⟨resp, nu, remote, hr, hn, h⟩
  · rw [h]; exact h
  · rw [h]
    apply modify_not_eligible
    simp [transient_eligible, lookupA_eraseA]

/-- Claim C4: after a first fetch that succeeded with data (which sets
`did_fetch_remote_data`), `modify_plugins_transient` performs no second
network retrieval, skips the override step, and returns the aggregate
unchanged; the cycle performs one retrieval in total, never two. -/
theorem claim_C4_single_fetch_per_cycle (st : UpdateState) (fetch : Option PluginData)
    (value : Option RemotePluginData) (loc : PluginData) (t : Transient)
    (d : PluginData) (hfetch : fetch = some d) :
    modify_plugins_transient_instr
        (update_plugins_gutestrap_data_instr st fetch value).1.1 fetch loc t = (t, 0) ∧
    (update_plugins_gutestrap_data_instr st fetch value).2
      + (modify_plugins_transient_instr
          (update_plugins_gutestrap_data_instr st fetch value).1.1 fetch loc t).2 = 1 := by
  subst hfetch
  have hst : (update_plugins_gutestrap_data_instr st (some d) value).1.1.did_fetch_remote_data
      = true := rfl
  have h := modify_after_fetch
    (update_plugins_gutestrap_data_instr st (some d) value).1.1 (some d) loc t hst
  exact ⟨h, by rw [h]; rfl⟩

/-- Claim C5 counterexample: with a matching slug, the
"plugin_information" action, and an empty fetch, `modify_plugin_details`
does not return the fetch result as-is — it returns the empty fetch
result decorated with the sections. -/
theorem claim_C5_counterexample :
    modify_plugin_details (α := Bool) none loc0 false
        (some "plugin_information") (some { slug := some "gutestrap" }) =
      DetailsResult.decorated none (gutestrap_sections loc0) ∧
    modify_plugin_details (α := Bool) none loc0 false
        (some "plugin_information") (some { slug := some "gutestrap" }) ≠
      DetailsResult.raw none := by
  refine ⟨rfl, ?_⟩
  intro h
  exact DetailsResult.noConfusion ((rfl : modify_plugin_details (α := Bool) none loc0 false
    (some "plugin_information") (some { slug := some "gutestrap" }) =
      DetailsResult.decorated none (gutestrap_sections loc0)) ▸ h)

/-- Claim C5 (amended): when the requested slug matches the plugin, the
action is "plugin_information", and the remote fetch yields an empty
result, `modify_plugin_details` does not return the fetch result as-is:
since the fetch always returns an array, the not-an-array guard never
fires, and the operation returns the empty result cast to an object and
decorated with the sections. -/
theorem claim_C5_empty_fetch_still_decorated {α : Type} (fetch : Option PluginData)
    (loc : PluginData) (result : α) (action : Option String) (args : Option DetailsArgs)
    (hargs : args = some { slug := some "gutestrap" })
    (haction : action = some "plugin_information")
    (hfetch : fetch = none) :
    modify_plugin_details fetch loc result action args =
      DetailsResult.decorated none (gutestrap_sections loc) := by
  subst hargs haction hfetch
  rfl

/-- Claim C6: `get_remote_plugin_data` is a total function of the
retrieval outcome (it can never throw): a failed or unparseable retrieval
yields the empty result, and a successful retrieval yields a populated
descriptor carrying the fetched fields. -/
theorem claim_C6_fetch_total (fetch : Option PluginData) :
    (fetch = none → get_remote_plugin_data fetch = none) ∧
    (∀ d, fetch = some d → ∃ r, get_remote_plugin_data fetch = some r ∧
      r.slug = "gutestrap" ∧ r.plugin = GUTESTRAP_PLUGIN_BASENAME ∧
      r.name = d.Name ∧ r.version = d.Version ∧ r.new_version = d.Version ∧
      r.url = d.PluginURI ∧ r.requires = d.RequiresWP ∧
      r.require_php = d.RequiresPHP ∧ r.author = d.Author) := by
  constructor
  · intro h; rw [h]; rfl
  · intro d h
    rw [h]
    exact ⟨_, rfl, rfl, rfl, rfl, rfl, rfl, rfl, rfl, rfl, rfl⟩

/-- Claim C7: on a successful install of the matching plugin that was
previously active, `post_install` moves the extracted files from the
temporary destination to the canonical plugin folder, sets the
descriptor's destination to that folder, re-activates the plugin, and
returns the original success flag. -/
theorem claim_C7_relocate_and_reactivate (response : Bool) (hook_extra_plugin : Option String)
    (result : InstallResult) (active_before : Bool) (move_ok : Bool)
    (hmatch : hook_extra_plugin = some GUTESTRAP_PLUGIN_BASENAME)
    (hactive : active_before = true) :
    post_install response hook_extra_plugin result active_before move_ok =
      { ret := response
        moves := [(result.destination, gutestrap_plugin_folder)]
        activations := [GUTESTRAP_PLUGIN_BASENAME]
        result := { destination := gutestrap_plugin_folder } } := by
  subst hmatch hactive
  simp [post_install]

/-- Claim C8: `post_install` always returns the success flag it was
given, for every hook target, destination, prior activation state, and
filesystem-move outcome. -/
theorem claim_C8_returns_flag_unchanged (response : Bool) (hook_extra_plugin : Option String)
    (result : InstallResult) (active_before : Bool) (move_ok : Bool) :
    (post_install response hook_extra_plugin result active_before move_ok).ret = response := by
  unfold post_install
  split <;> rfl

/-- Claim C9: when the installed item's identifier does not match the
plugin basename, `post_install` passes through untouched: no filesystem
move, no change to the result descriptor, no activation. -/
theorem claim_C9_mismatch_passthrough (response : Bool) (hook_extra_plugin : Option String)
    (result : InstallResult) (active_before : Bool) (move_ok : Bool)
    (hmismatch : hook_extra_plugin ≠ some GUTESTRAP_PLUGIN_BASENAME) :
    post_install response hook_extra_plugin result active_before move_ok =
      { ret := response, moves := [], activations := [], result := result } := by
  unfold post_install
  rw [if_neg hmismatch]

/-- Claim C10: `modify_plugins_transient` leaves the aggregate exactly as
given whenever it lacks a `response` container, a `checked` entry for the
plugin basename, or a `no_update` entry for the plugin basename. -/
theorem claim_C10_frame (st : UpdateState) (fetch : Option PluginData)
    (loc : PluginData) (t : Transient) (h : transient_eligible t = false) :
    modify_plugins_transient st fetch loc t = t :=
  modify_not_eligible st fetch loc t h

/- ------------------------------------------------------------------ -/
/- Witnesses                                                           -/
/- ------------------------------------------------------------------ -/

/-- Witness for C1 at installed version 2.3.0 and remote version 2.4.0. -/
theorem claim_C1_witness :
    t0.response = some [] ∧
    t0.checked = some [(GUTESTRAP_PLUGIN_BASENAME, "2.3.0")] ∧
    t0.no_update = some [(GUTESTRAP_PLUGIN_BASENAME, r0)] ∧
    (lookupA [(GUTESTRAP_PLUGIN_BASENAME, "2.3.0")] GUTESTRAP_PLUGIN_BASENAME).isSome = true ∧
    (lookupA [(GUTESTRAP_PLUGIN_BASENAME, r0)] GUTESTRAP_PLUGIN_BASENAME).isSome = true ∧
    st0.did_fetch_remote_data = false ∧
    get_remote_plugin_data (some d0) = some r0 ∧
    modify_plugins_transient st0 (some d0) loc0 t0 =
      (if version_gt r0.new_version loc0.Version then
        { t0 with
            response := some (setA [] GUTESTRAP_PLUGIN_BASENAME r0)
            no_update := some (eraseA [(GUTESTRAP_PLUGIN_BASENAME, r0)] GUTESTRAP_PLUGIN_BASENAME) }
       else t0) :=
  ⟨rfl, rfl, rfl, by decide, rfl, rfl, rfl,
    claim_C1_marks_update_iff_newer st0 (some d0) loc0 t0
      [] [(GUTESTRAP_PLUGIN_BASENAME, "2.3.0")] [(GUTESTRAP_PLUGIN_BASENAME, r0)] r0
      rfl rfl rfl (by decide) rfl rfl rfl⟩

/-- Witness for C2 at installed version 2.3.0 and remote version 2.4.0. -/
theorem claim_C2_witness :
    version_gt r0.new_version loc0.Version = true ∧
    ∃ resp' nu',
      (modify_plugins_transient st0 (some d0) loc0 t0).response = some resp' ∧
      (modify_plugins_transient st0 (some d0) loc0 t0).no_update = some nu' ∧
      lookupA resp' GUTESTRAP_PLUGIN_BASENAME = some r0 ∧
      lookupA nu' GUTESTRAP_PLUGIN_BASENAME = none :=
  ⟨by decide,
    claim_C2_update_entry_excludes_no_update st0 (some d0) loc0 t0
      [] [(GUTESTRAP_PLUGIN_BASENAME, "2.3.0")] [(GUTESTRAP_PLUGIN_BASENAME, r0)] r0
      rfl rfl rfl (by decide) rfl rfl rfl (by decide)⟩

/-- Witness for C4 with a successful first fetch. -/
theorem claim_C4_witness :
    (some d0 : Option PluginData) = some d0 ∧
    modify_plugins_transient_instr
        (update_plugins_gutestrap_data_instr st0 (some d0) none).1.1 (some d0) loc0 t0 = (t0, 0) ∧
    (update_plugins_gutestrap_data_instr st0 (some d0) none).2
      + (modify_plugins_transient_instr
          (update_plugins_gutestrap_data_instr st0 (some d0) none).1.1 (some d0) loc0 t0).2 = 1 :=
  ⟨rfl,
    (claim_C4_single_fetch_per_cycle st0 (some d0) none loc0 t0 d0 rfl).1,
    (claim_C4_single_fetch_per_cycle st0 (some d0) none loc0 t0 d0 rfl).2⟩

/-- Witness for the amended C5 at an empty fetch. -/
theorem claim_C5_witness :
    (some { slug := some "gutestrap" } : Option DetailsArgs) = some { slug := some "gutestrap" } ∧
    (some "plugin_information" : Option String) = some "plugin_information" ∧
    (none : Option PluginData) = none ∧
    modify_plugin_details (α := Bool) none loc0 true
        (some "plugin_information") (some { slug := some "gutestrap" }) =
      DetailsResult.decorated none (gutestrap_sections loc0) :=
  ⟨rfl, rfl, rfl,
    claim_C5_empty_fetch_still_decorated none loc0 true
      (some "plugin_information") (some { slug := some "gutestrap" }) rfl rfl rfl⟩

/-- Witness for C6 at a failed fetch and at a successful fetch of `d0`. -/
theorem claim_C6_witness :
    get_remote_plugin_data none = none ∧
    ∃ r, get_remote_plugin_data (some d0) = some r ∧ r.new_version = d0.Version :=
  ⟨(claim_C6_fetch_total none).1 rfl, by
    obtain ⟨r, hr, _, _, _, _, hv, _⟩ := (claim_C6_fetch_total (some d0)).2 d0 rfl
    exact ⟨r, hr, hv⟩⟩

/-- Witness for C7: successful install of the matching plugin, previously
active, extracted to a temporary folder. -/
theorem claim_C7_witness :
    (some GUTESTRAP_PLUGIN_BASENAME : Option String) = some GUTESTRAP_PLUGIN_BASENAME ∧
    (true : Bool) = true ∧
    post_install true (some GUTESTRAP_PLUGIN_BASENAME)
        { destination := "/tmp/extract-xyz" } true true =
      { ret := true
        moves := [("/tmp/extract-xyz", gutestrap_plugin_folder)]
        activations := [GUTESTRAP_PLUGIN_BASENAME]
        result := { destination := gutestrap_plugin_folder } } :=
  ⟨rfl, rfl,
    claim_C7_relocate_and_reactivate true (some GUTESTRAP_PLUGIN_BASENAME)
      { destination := "/tmp/extract-xyz" } true true rfl rfl⟩

/-- Witness for C9: an unrelated plugin was installed. -/
theorem claim_C9_witness :
    (some "other-plugin/other.php" : Option String) ≠ some GUTESTRAP_PLUGIN_BASENAME ∧
    post_install false (some "other-plugin/other.php")
        { destination := "/tmp/extract-abc" } false true =
      { ret := false, moves := [], activations := []
        result := { destination := "/tmp/extract-abc" } } :=
  ⟨by decide,
    claim_C9_mismatch_passthrough false (some "other-plugin/other.php")
      { destination := "/tmp/extract-abc" } false true (by decide)⟩

/-- Witness for C10 at an aggregate with no members set. -/
theorem claim_C10_witness :
    transient_eligible tEmpty = false ∧
    modify_plugins_transient st0 (some d0) loc0 tEmpty = tEmpty :=
  ⟨rfl, claim_C10_frame st0 (some d0) loc0 tEmpty rfl⟩

end Gutestrap
